import Mathlib

set_option linter.unusedVariables false

namespace InterviewAssistant

/-- Decidable equality for `Except`, so concrete adapter and recorder
outcomes can be settled by `decide`. -/
instance {ε α : Type} [DecidableEq ε] [DecidableEq α] : DecidableEq (Except ε α) :=
  fun a b =>
    match a, b with
    | Except.ok x, Except.ok y =>
        if h : x = y then Decidable.isTrue (congrArg Except.ok h)
        else Decidable.isFalse (fun hc => h (Except.ok.inj hc))
    | Except.error x, Except.error y =>
        if h : x = y then Decidable.isTrue (congrArg Except.error h)
        else Decidable.isFalse (fun hc => h (Except.error.inj hc))
    | Except.ok _, Except.error _ => Decidable.isFalse (fun hc => Except.noConfusion hc)
    | Except.error _, Except.ok _ => Decidable.isFalse (fun hc => Except.noConfusion hc)

/-! Shallow embedding of the interview-assistant orchestration layer.

The main-process module (screenshot queue, single-flight processing flag,
reset handling) is modelled as a small-step machine: each handler's
synchronous segment is one step, and the suspension points of the real
event loop (`await` of a screenshot capture, `await` of an AI provider
call) split a handler into a begin step and a completion step, so that
the interleavings the real event loop admits are exactly the traces of
the machine. -/

/-- A queued screenshot as held by the main process: numeric timestamp id,
base64 data-URL preview, and the on-disk file path. -/
structure Screenshot where
  id : Nat
  preview : String
  path : String
deriving Repr, DecidableEq

/-- The four-field solution record produced by the image-solving adapters. -/
structure ProcessedSolution where
  approach : String
  code : String
  timeComplexity : String
  spaceComplexity : String
deriving Repr, DecidableEq

/-- Payload of a `processing-complete` event.  The main process sends
`JSON.stringify` of one of four object shapes; the `error` field is present
only on the failure shape. -/
structure SolutionPayload where
  error : Option String
  approach : String
  code : String
  timeComplexity : String
  spaceComplexity : String
deriving Repr, DecidableEq

/-- Successful-result payload: `JSON.stringify(result)` (four fields, no
`error` member). -/
def okPayload (r : ProcessedSolution) : SolutionPayload :=
  { error := none, approach := r.approach, code := r.code,
    timeComplexity := r.timeComplexity, spaceComplexity := r.spaceComplexity }

/-- Failure payload synthesized in the catch branch of
`handleProcessScreenshots`. -/
def errorPayload (msg : String) : SolutionPayload :=
  { error := some msg
    approach := "Error occurred while processing"
    code := "Error: " ++ msg
    timeComplexity := "N/A"
    spaceComplexity := "N/A" }

/-- Payload sent when no configuration is present. -/
def noConfigPayload : SolutionPayload :=
  { error := none
    approach := "Error"
    code := "No configuration found. Please configure your API keys."
    timeComplexity := ""
    spaceComplexity := "" }

/-- Payload sent by `handleResetQueue` when it cancels an in-flight job. -/
def cancelledPayload : SolutionPayload :=
  { error := none
    approach := "Processing cancelled"
    code := ""
    timeComplexity := ""
    spaceComplexity := "" }

/-- Events the main process sends to the renderer for the screenshot flow. -/
inductive MainEvent
  | screenshotTaken (s : Screenshot)
  | processingStarted
  | processingComplete (p : SolutionPayload)
  | queueReset
deriving Repr, DecidableEq

/-- The configured AI provider (`config.provider`). -/
inductive Provider
  | openai
  | gemini
  | other (name : String)
deriving Repr, DecidableEq

/-- Outcome of an in-flight AI provider call. -/
inductive CallOutcome
  | success (r : ProcessedSolution)
  | failure (msg : String)
deriving Repr, DecidableEq

/-- State of the main process for the screenshot flow.  `pendingCaptures`
counts `handleTakeScreenshot` activations suspended between their capacity
check and their push; `pendingCalls` counts provider calls in flight;
`providerCalls` counts provider calls ever issued; `deletionAttempts`
records the file paths whose deletion `handleResetQueue` has attempted
(best-effort: a failed unlink is logged and does not stop the loop, so
every queued path is attempted regardless of individual failures). -/
structure MainState where
  config : Option Provider
  queue : List Screenshot
  isProcessing : Bool
  pendingCaptures : Nat
  pendingCalls : Nat
  providerCalls : Nat
  deletionAttempts : List String
  events : List MainEvent
deriving Repr, DecidableEq

/-- Synchronous prefix of `handleTakeScreenshot`: the capacity check
(`screenshotQueue.length >= MAX_SCREENSHOTS`) runs before the handler
suspends to await the capture. -/
def handleTakeScreenshotBegin (s : MainState) : MainState :=
  if s.queue.length ≥ 4 then s
  else { s with pendingCaptures := s.pendingCaptures + 1 }

/-- Resumption of `handleTakeScreenshot` after its awaited capture and file
write: on success the screenshot is pushed (with no re-check of capacity)
and `screenshot-taken` is sent; on capture failure the error is caught and
the queue is left untouched. -/
def handleTakeScreenshotEnd (s : MainState) (shot : Screenshot) (ok : Bool) : MainState :=
  if s.pendingCaptures = 0 then s
  else
    let s1 := { s with pendingCaptures := s.pendingCaptures - 1 }
    if ok then
      { s1 with queue := s1.queue ++ [shot]
                events := s1.events ++ [MainEvent.screenshotTaken shot] }
    else s1

/-- Synchronous prefix of `handleProcessScreenshots`, up to issuing the
provider call: guard (`isProcessing || screenshotQueue.length === 0`),
config check, setting the single-flight flag, sending `processing-started`,
and dispatching on the provider.  An unsupported provider throws
synchronously, so its error payload is emitted and the flag cleared within
the same step. -/
def handleProcessScreenshotsBegin (s : MainState) : MainState :=
  if s.isProcessing || s.queue.length == 0 then s
  else
    match s.config with
    | none =>
        { s with events := s.events ++ [MainEvent.processingComplete noConfigPayload] }
    | some p =>
        let s1 := { s with isProcessing := true
                           events := s.events ++ [MainEvent.processingStarted] }
        match p with
        | Provider.openai =>
            { s1 with pendingCalls := s1.pendingCalls + 1
                      providerCalls := s1.providerCalls + 1 }
        | Provider.gemini =>
            { s1 with pendingCalls := s1.pendingCalls + 1
                      providerCalls := s1.providerCalls + 1 }
        | Provider.other name =>
            { s1 with isProcessing := false
                      events := s1.events ++
                        [MainEvent.processingComplete
                          (errorPayload ("Unsupported AI provider: " ++ name))] }

/-- Resumption of `handleProcessScreenshots` when an in-flight provider
call returns.  Both the success path and the catch branch first check
`if (!isProcessing) return` (suppressing the event when the flag was
cleared meanwhile); the `finally` block clears the flag unconditionally. -/
def providerCallReturn (s : MainState) (o : CallOutcome) : MainState :=
  if s.pendingCalls = 0 then s
  else
    let s1 := { s with pendingCalls := s.pendingCalls - 1 }
    if !s1.isProcessing then s1
    else
      match o with
      | CallOutcome.success r =>
          { s1 with isProcessing := false
                    events := s1.events ++ [MainEvent.processingComplete (okPayload r)] }
      | CallOutcome.failure msg =>
          { s1 with isProcessing := false
                    events := s1.events ++ [MainEvent.processingComplete (errorPayload msg)] }

/-- `handleResetQueue`: if processing, clear the flag and send the
cancellation payload; attempt deletion of every queued screenshot file
(best-effort); empty the queue; send `queue-reset`. -/
def handleResetQueue (s : MainState) : MainState :=
  let s1 :=
    if s.isProcessing then
      { s with isProcessing := false
               events := s.events ++ [MainEvent.processingComplete cancelledPayload] }
    else s
  { s1 with deletionAttempts := s1.deletionAttempts ++ s1.queue.map Screenshot.path
            queue := []
            events := s1.events ++ [MainEvent.queueReset] }

/-- One event-loop step of the screenshot flow. -/
inductive Label
  | takeBegin
  | takeEnd (shot : Screenshot) (ok : Bool)
  | process
  | callReturn (o : CallOutcome)
  | reset
deriving Repr, DecidableEq

/-- Step function of the machine. -/
def step (s : MainState) : Label → MainState
  | Label.takeBegin => handleTakeScreenshotBegin s
  | Label.takeEnd shot ok => handleTakeScreenshotEnd s shot ok
  | Label.process => handleProcessScreenshotsBegin s
  | Label.callReturn o => providerCallReturn s o
  | Label.reset => handleResetQueue s

/-- Run a trace of event-loop steps. -/
def run (s : MainState) (ls : List Label) : MainState :=
  ls.foldl step s

/-- The startup state: empty queue, flag clear, nothing in flight. -/
def initState (cfg : Option Provider) : MainState :=
  { config := cfg, queue := [], isProcessing := false, pendingCaptures := 0,
    pendingCalls := 0, providerCalls := 0, deletionAttempts := [], events := [] }

/-! Renderer (App component) reactions to main-process events, from
`preload.ts`.  Only the state touched by the claims is modelled. -/

/-- A renderer history entry (`HistoryItem`): stored newest-first. -/
structure HistoryItem where
  id : Nat
  itemType : String
  result : SolutionPayload
  screenshots : List Screenshot
deriving Repr, DecidableEq

/-- Renderer-side state relevant to queue/history claims. -/
structure RendererState where
  screenshots : List Screenshot
  history : List HistoryItem
  currentItem : Option HistoryItem
  isProcessing : Bool
deriving Repr, DecidableEq

/-- `onProcessingComplete` handler: builds a history item from the payload
and the current screenshots, prepends it to history, makes it current,
clears the processing flag. -/
def onProcessingComplete (st : RendererState) (newId : Nat) (p : SolutionPayload) :
    RendererState :=
  let item : HistoryItem :=
    { id := newId, itemType := "screenshot", result := p, screenshots := st.screenshots }
  { st with history := item :: st.history, currentItem := some item, isProcessing := false }

/-- `onScreenshotTaken` handler: appends the new screenshot to the preview list. -/
def onScreenshotTaken (st : RendererState) (shot : Screenshot) : RendererState :=
  { st with screenshots := st.screenshots ++ [shot] }

/-- `onQueueReset` handler: clears the screenshot previews only; the source
comment reads "Don't clear history/currentItem here - only clear
screenshots". -/
def onQueueReset (st : RendererState) : RendererState :=
  { st with screenshots := [] }

/-! Audio recorder service (`audioRecorder.ts`) and the main-process
recording/audio-processing handlers. -/

/-- Error taxonomy for the recorder, following the thrown messages:
`invalidState` for "Already recording" / "Not currently recording",
`capabilityUnavailable` for "No audio recording tool found",
`recordingFailed` for a missing or empty output file. -/
inductive RecError
  | invalidState
  | capabilityUnavailable
  | recordingFailed
deriving Repr, DecidableEq

/-- Mutable fields of `AudioRecorderService`. -/
structure RecorderState where
  isRecording : Bool
  outputPath : String
  questionCounter : Nat
deriving Repr, DecidableEq

/-- The deterministic output path `question-<sequence>.wav`. -/
def questionPath (n : Nat) : String :=
  "question-" ++ toString n ++ ".wav"

/-- `startRecording`: throws "Already recording" if the flag is set
(before any mutation); otherwise assigns `outputPath`, probes for a
recording tool, spawns it and sets the flag, or fails with
`capabilityUnavailable` leaving the flag clear. -/
def startRecording (r : RecorderState) (toolAvailable : Bool) :
    RecorderState × Except RecError String :=
  if r.isRecording then (r, Except.error RecError.invalidState)
  else
    let r1 := { r with outputPath := questionPath r.questionCounter }
    if toolAvailable then ({ r1 with isRecording := true }, Except.ok r1.outputPath)
    else ({ r1 with isRecording := false }, Except.error RecError.capabilityUnavailable)

/-- `stopRecording` with the observed size of the output file (`none` when
`fs.stat` fails because the file is missing): throws "Not currently
recording" if idle; otherwise clears the flag, awaits the subprocess,
verifies the file is present and non-empty (else `recordingFailed`, with
the flag left clear and the counter unchanged), then increments the
question counter and returns the finished path. -/
def stopRecording (r : RecorderState) (fileSize : Option Nat) :
    RecorderState × Except RecError String :=
  if !r.isRecording then (r, Except.error RecError.invalidState)
  else
    let r1 := { r with isRecording := false }
    match fileSize with
    | none => (r1, Except.error RecError.recordingFailed)
    | some 0 => (r1, Except.error RecError.recordingFailed)
    | some _ =>
        ({ r1 with questionCounter := r1.questionCounter + 1 }, Except.ok r1.outputPath)

/-- `toggleRecording`: dispatches on the current flag. -/
def toggleRecording (r : RecorderState) (toolAvailable : Bool) (fileSize : Option Nat) :
    RecorderState × Except RecError String :=
  if r.isRecording then stopRecording r fileSize else startRecording r toolAvailable

/-- `getRecordingStatus`. -/
def getRecordingStatus (r : RecorderState) : Bool :=
  r.isRecording

/-- Events the main process sends to the renderer for the audio flow. -/
inductive AudioEvent
  | recordingToggled (isRecording : Bool) (filePath : String)
  | recordingError
  | audioProcessingStarted
  | audioStreamChunk (text : String)
  | audioProcessingComplete
  | audioProcessingError
deriving Repr, DecidableEq

/-- The streaming loop of `processAudioStream`: each stream chunk is
modelled by the text the code would extract from it (`""` when the chunk
carries no usable content, since the guard requires a truthy
`content.parts[0].text`).  Returns the texts passed to `onChunk`, in
arrival order, together with the `hasReceivedContent` flag. -/
def streamDeliver : List String → List String × Bool
  | [] => ([], false)
  | c :: rest =>
      let (tail, hrc) := streamDeliver rest
      if c = "" then (tail, hrc) else (c :: tail, true)

/-- `processAudioStream` (Gemini service), given the extracted texts of the
stream's chunks and the text the fallback non-streaming call would return:
yields the chunk texts delivered to `onChunk` (in order) and the number of
fallback non-streaming calls made.  The fallback fires exactly when no
streaming content was received, and its text is delivered only when
truthy (non-empty). -/
def processAudioStream (stream : List String) (fallbackText : String) :
    List String × Nat :=
  let (delivered, hasReceivedContent) := streamDeliver stream
  if hasReceivedContent then (delivered, 0)
  else ((if fallbackText = "" then [] else [fallbackText]), 1)

/-- Main-process state for the recording/audio flow.
`audioProviderCalls` counts provider audio calls (streaming or fallback). -/
structure AudioSysState where
  config : Option Provider
  recorder : RecorderState
  audioProviderCalls : Nat
  events : List AudioEvent
deriving Repr, DecidableEq

/-- `handleProcessAudio`: without config, emit `audio-processing-error`;
otherwise emit `audio-processing-started`, read and base64-encode the file
(`readOk` is whether that read succeeds), then for the Gemini provider run
the streaming call (forwarding each chunk to the renderer) and emit
`audio-processing-complete`; any other provider throws, which the catch
converts into `audio-processing-error`. -/
def handleProcessAudio (s : AudioSysState) (readOk : Bool) (stream : List String)
    (fallbackText : String) : AudioSysState :=
  match s.config with
  | none => { s with events := s.events ++ [AudioEvent.audioProcessingError] }
  | some p =>
      let s1 := { s with events := s.events ++ [AudioEvent.audioProcessingStarted] }
      if !readOk then
        { s1 with events := s1.events ++ [AudioEvent.audioProcessingError] }
      else
        match p with
        | Provider.gemini =>
            let (chunks, fallbackCalls) := processAudioStream stream fallbackText
            { s1 with
                audioProviderCalls := s1.audioProviderCalls + 1 + fallbackCalls
                events := s1.events ++ chunks.map AudioEvent.audioStreamChunk ++
                  [AudioEvent.audioProcessingComplete] }
        | _ => { s1 with events := s1.events ++ [AudioEvent.audioProcessingError] }

/-- `handleToggleRecording`: toggles the recorder; a thrown error is caught
and sent as `recording-error`; on success `recording-toggled` is sent and,
when the toggle was a stop that produced a file path, the audio pipeline
runs. -/
def handleToggleRecording (s : AudioSysState) (toolAvailable : Bool)
    (fileSize : Option Nat) (readOk : Bool) (stream : List String)
    (fallbackText : String) : AudioSysState :=
  let (r1, res) := toggleRecording s.recorder toolAvailable fileSize
  let s1 := { s with recorder := r1 }
  match res with
  | Except.error _ => { s1 with events := s1.events ++ [AudioEvent.recordingError] }
  | Except.ok filePath =>
      let isRec := getRecordingStatus r1
      let s2 := { s1 with events := s1.events ++ [AudioEvent.recordingToggled isRec filePath] }
      if isRec = false ∧ filePath ≠ "" then
        handleProcessAudio s2 readOk stream fallbackText
      else s2

/-! AI provider adapters' response parsing, from the Gemini service
(`processImages`) and the OpenAI service (`processScreenshots`). -/

/-- Adapter-level failures. -/
inductive AdapterError
  | noJsonFound
  | parseFailure
  | invalidStructure
deriving Repr, DecidableEq

/-- Drop leading JSON whitespace. -/
def skipWs : List Char → List Char
  | [] => []
  | c :: rest =>
      if c = ' ' ∨ c = '\n' ∨ c = '\t' ∨ c = '\r' then skipWs rest else c :: rest

/-- Consume the body of a string literal up to its closing quote.
Escape sequences are outside the sublanguage (none of the payloads at
issue contain them). -/
def takeStringChars : List Char → Option (List Char × List Char)
  | [] => none
  | c :: rest =>
      if c = '"' then some ([], rest)
      else
        match takeStringChars rest with
        | none => none
        | some (cs, rem) => some (c :: cs, rem)

/-- Parse one JSON string literal. -/
def parseStringLit : List Char → Option (String × List Char)
  | [] => none
  | c :: rest =>
      if c = '"' then
        match takeStringChars rest with
        | none => none
        | some (cs, rem) => some (String.mk cs, rem)
      else none

/-- Parse the comma-separated members of a flat JSON object whose values
are string literals; fuel bounds the recursion. -/
def parseMembers : Nat → List Char → Option (List (String × String) × List Char)
  | 0, _ => none
  | Nat.succ fuel, input =>
      match parseStringLit (skipWs input) with
      | none => none
      | some (key, rest1) =>
          match skipWs rest1 with
          | ':' :: rest2 =>
              match parseStringLit (skipWs rest2) with
              | none => none
              | some (value, rest3) =>
                  match skipWs rest3 with
                  | ',' :: rest4 =>
                      match parseMembers fuel rest4 with
                      | none => none
                      | some (pairs, rem) => some ((key, value) :: pairs, rem)
                  | rest4 => some ([(key, value)], rest4)
          | _ => none

/-- Models the `JSON.parse` builtin on the sublanguage actually exercised
here: a single flat object whose values are string literals, with no
escape sequences, and nothing but whitespace allowed after the closing
brace (as `JSON.parse` rejects trailing garbage).  Returns the members in
textual order. -/
def jsonFlatParse (text : String) : Option (List (String × String)) :=
  match skipWs text.toList with
  | '{' :: rest =>
      (match skipWs rest with
       | '}' :: rest2 => if (skipWs rest2).isEmpty then some [] else none
       | rest1 =>
           match parseMembers (text.length + 1) rest1 with
           | none => none
           | some (pairs, rem) =>
               match skipWs rem with
               | '}' :: rest2 => if (skipWs rest2).isEmpty then some pairs else none
               | _ => none)
  | _ => none

/-- Field access on a parsed object: as in JS, a later duplicate key wins
and a missing field reads as falsy, modelled by `""`. -/
def getField (obj : List (String × String)) (key : String) : String :=
  match obj.reverse.find? (fun kv => kv.1 = key) with
  | some kv => kv.2
  | none => ""

/-- The Gemini service's span extraction `text.match(/\x7b[\s\S]*\x7d/)`:
the match starts at the first brace-open that has some brace-close after
it and, being greedy, ends at the last brace-close of the whole text. -/
def geminiJsonMatch (text : String) : Option String :=
  let cs := text.toList
  match cs.findIdx? (fun c => c = '{') with
  | none => none
  | some i =>
      match cs.reverse.findIdx? (fun c => c = '}') with
      | none => none
      | some k =>
          let j := cs.length - 1 - k
          if i < j then some (String.mk ((cs.drop i).take (j - i + 1))) else none

/-- Response-text handling of the Gemini `processImages`: extract the span,
`JSON.parse` it, and require all four fields truthy. -/
def geminiProcessResponseText (text : String) : Except AdapterError ProcessedSolution :=
  match geminiJsonMatch text with
  | none => Except.error AdapterError.noJsonFound
  | some span =>
      match jsonFlatParse span with
      | none => Except.error AdapterError.parseFailure
      | some obj =>
          if getField obj "approach" = "" ∨ getField obj "code" = "" ∨
              getField obj "timeComplexity" = "" ∨ getField obj "spaceComplexity" = "" then
            Except.error AdapterError.invalidStructure
          else
            Except.ok
              { approach := getField obj "approach", code := getField obj "code",
                timeComplexity := getField obj "timeComplexity",
                spaceComplexity := getField obj "spaceComplexity" }

/-- Response-content handling of the OpenAI `processScreenshots`: the whole
message content goes through `JSON.parse` and the result is returned as-is
(`as ProcessedSolution` is a compile-time cast), with no span extraction
and no field validation. -/
def openaiProcessResponseContent (content : String) :
    Except AdapterError (List (String × String)) :=
  match jsonFlatParse content with
  | none => Except.error AdapterError.parseFailure
  | some obj => Except.ok obj

/-- Scan for the close of the first balanced brace span, tracking depth. -/
def balancedScan : List Char → Nat → List Char → Option String
  | [], _, _ => none
  | c :: rest, depth, acc =>
      if c = '{' then balancedScan rest (depth + 1) (c :: acc)
      else if c = '}' then
        if depth = 1 then some (String.mk (c :: acc).reverse)
        else balancedScan rest (depth - 1) (c :: acc)
      else balancedScan rest depth (c :: acc)

/-- Modelled from the spec: the spec's parsing contract says the adapter
"must locate the first balanced `\x7b...\x7d` span in the raw text"; no
such extraction exists in the source, so this definition follows the
spec's words (naive depth counting from the first opening brace) for
comparison with the source's `geminiJsonMatch`. -/
def firstBalancedSpan (text : String) : Option String :=
  balancedScan (text.toList.dropWhile (fun c => c ≠ '{')) 0 []

/-! Concrete fixtures used to instantiate and refute claims. -/

/-- A concrete screenshot. -/
def shotA : Screenshot := { id := 1, preview := "pv1", path := "shots/1.png" }

/-- A concrete screenshot. -/
def shotB : Screenshot := { id := 2, preview := "pv2", path := "shots/2.png" }

/-- A concrete screenshot. -/
def shotC : Screenshot := { id := 3, preview := "pv3", path := "shots/3.png" }

/-- A concrete screenshot. -/
def shotD : Screenshot := { id := 4, preview := "pv4", path := "shots/4.png" }

/-- A concrete screenshot. -/
def shotE : Screenshot := { id := 5, preview := "pv5", path := "shots/5.png" }

/-- A main-process state with one queued screenshot, idle, OpenAI configured. -/
def readyState : MainState :=
  { initState (some Provider.openai) with queue := [shotA] }

/-! C1: process-queue is single-flight and a no-op on an empty queue. -/

/-- C1: a process-queue intent is a complete no-op (state unchanged, hence
no provider call issued and no processing-started event sent) when the
single-flight flag is set or the queue is empty; and from an idle state
with a non-empty queue and a supported provider configured, two
process-queue intents in quick succession issue exactly one provider
call. -/
theorem c1_process_single_flight (s : MainState) :
    ((s.isProcessing = true ∨ s.queue = []) → step s Label.process = s) ∧
    (s.isProcessing = false → s.queue ≠ [] →
      (s.config = some Provider.openai ∨ s.config = some Provider.gemini) →
      (run s [Label.process, Label.process]).providerCalls = s.providerCalls + 1) := by
  constructor
  · intro h
    simp only [step, handleProcessScreenshotsBegin]
    rcases h with h | h
    · simp [h]
    · simp [h]
  · intro h1 h2 h3
    simp only [run, List.foldl, step, handleProcessScreenshotsBegin, h1]
    have hq : (s.queue.length == 0) = false := by
      simp [List.length_eq_zero, h2]
    rcases h3 with h3 | h3 <;> simp [h3, hq]

/-- Witness for C1 at concrete states: the no-op on an empty queue and the
exactly-one-call behavior on `readyState`. -/
theorem c1_process_single_flight_witness :
    step (initState (some Provider.openai)) Label.process =
      initState (some Provider.openai) ∧
    (run readyState [Label.process, Label.process]).providerCalls =
      readyState.providerCalls + 1 := by
  refine ⟨(c1_process_single_flight (initState (some Provider.openai))).1 (Or.inr rfl), ?_⟩
  exact (c1_process_single_flight readyState).2 rfl (by decide) (Or.inl rfl)

/-! C2: the queue-capacity claim.  The capacity check of
`handleTakeScreenshot` runs before the handler suspends to await the
capture, and the push after the capture does not re-check; overlapping
take-screenshot intents (all admitted by the event loop, e.g. several
hotkey presses within the 100 ms hide delay) can therefore push the queue
past 4.  Sequentially completed intents respect the cap. -/

/-- A trace of five take-screenshot intents from the empty queue whose
captures are all in flight together before any push happens. -/
def c2OverlapTrace : List Label :=
  [Label.takeBegin, Label.takeBegin, Label.takeBegin, Label.takeBegin, Label.takeBegin,
   Label.takeEnd shotA true, Label.takeEnd shotB true, Label.takeEnd shotC true,
   Label.takeEnd shotD true, Label.takeEnd shotE true]

/-- C2 counterexample: five overlapping take-screenshot intents from the
empty queue leave the queue at length 5, exceeding the claimed bound of 4. -/
theorem c2_capacity_counterexample :
    (run (initState (some Provider.openai)) c2OverlapTrace).queue.length = 5 := by
  decide

/-- One take-screenshot handler run to completion: capacity check, awaited
capture, then push (on success). -/
def takeAtomic (s : MainState) (shot : Screenshot) (ok : Bool) : MainState :=
  handleTakeScreenshotEnd (handleTakeScreenshotBegin s) shot ok

/-- A sequence of take-screenshot intents, each completing before the next. -/
def runTakes (s : MainState) : List (Screenshot × Bool) → MainState
  | [] => s
  | (shot, ok) :: rest => runTakes (takeAtomic s shot ok) rest

/-- A completed take preserves the no-pending-capture condition and the
capacity bound. -/
theorem takeAtomic_inv (s : MainState) (shot : Screenshot) (ok : Bool)
    (hp : s.pendingCaptures = 0) (hq : s.queue.length ≤ 4) :
    (takeAtomic s shot ok).pendingCaptures = 0 ∧
      (takeAtomic s shot ok).queue.length ≤ 4 := by
  simp only [takeAtomic, handleTakeScreenshotBegin, handleTakeScreenshotEnd]
  by_cases h4 : s.queue.length ≥ 4
  · simp [h4, hp, hq]
  · simp only [h4, if_false, hp]
    by_cases hok : ok = true
    · simp [hok]
      omega
    · simp at hok
      simp [hok, hp, hq]

/-- C2 amended: provided each take-screenshot intent runs to completion
before the next arrives, the queue length never exceeds 4 from any
in-bounds state, and a take arriving with the queue at exactly 4 is a
complete no-op (state unchanged, hence no error surfaced). -/
theorem c2_capacity_amended (s : MainState) (takes : List (Screenshot × Bool))
    (shot : Screenshot) (ok : Bool)
    (hp : s.pendingCaptures = 0) (hq : s.queue.length ≤ 4) :
    (runTakes s takes).queue.length ≤ 4 ∧
    (s.queue.length = 4 → takeAtomic s shot ok = s) := by
  constructor
  · induction takes generalizing s with
    | nil => exact hq
    | cons t rest ih =>
        obtain ⟨shot1, ok1⟩ := t
        have h := takeAtomic_inv s shot1 ok1 hp hq
        exact ih (takeAtomic s shot1 ok1) h.1 h.2
  · intro h4
    simp [takeAtomic, handleTakeScreenshotBegin, handleTakeScreenshotEnd, h4, hp]

/-- Witness for C2's amended theorem: four successful sequential takes from
the empty queue stay at the bound, and a fifth is a no-op. -/
theorem c2_capacity_amended_witness :
    (runTakes (initState (some Provider.openai))
        [(shotA, true), (shotB, true), (shotC, true), (shotD, true), (shotE, true)]).queue.length ≤ 4 := by
  exact (c2_capacity_amended (initState (some Provider.openai))
    [(shotA, true), (shotB, true), (shotC, true), (shotD, true), (shotE, true)]
    shotE true rfl (by decide)).1

/-! C3: suppression of a stale in-flight result after a reset.  The
completion callback checks the current value of the single-flight flag,
not whether the reset cancelled this particular run; if a new
process-queue job sets the flag again before the stale call returns, the
stale result passes the check and is emitted after the reset. -/

/-- The stale result the first (pre-reset) provider call returns. -/
def staleResult : ProcessedSolution :=
  { approach := "stale", code := "stale-code", timeComplexity := "O(n)",
    spaceComplexity := "O(1)" }

/-- Interleaving that defeats the suppression check: process (call 1 goes
in flight), reset, a fresh screenshot, process again (call 2 goes in
flight, setting the flag), then call 1 returns stale. -/
def c3Trace : List Label :=
  [Label.process, Label.reset, Label.takeBegin, Label.takeEnd shotB true,
   Label.process, Label.callReturn (CallOutcome.success staleResult)]

/-- C3 counterexample: after the reset cleared the flag, a second
process-queue job set it again, so the stale call's completion is NOT
suppressed: a `processing-complete` event carrying the stale result is
emitted after the `queue-reset` event (and, per the trailing `finally`,
the stale run also clears the new run's flag). -/
theorem c3_stale_counterexample :
    (run readyState c3Trace).events =
      [MainEvent.processingStarted,
       MainEvent.processingComplete cancelledPayload,
       MainEvent.queueReset,
       MainEvent.screenshotTaken shotB,
       MainEvent.processingStarted,
       MainEvent.processingComplete (okPayload staleResult)] ∧
    (run readyState c3Trace).isProcessing = false := by
  decide

/-- Any step that is not a process-queue intent keeps the single-flight
flag clear. -/
theorem step_keeps_flag_clear (s : MainState) (l : Label)
    (hl : l ≠ Label.process) (h : s.isProcessing = false) :
    (step s l).isProcessing = false := by
  cases l with
  | takeBegin =>
      simp only [step, handleTakeScreenshotBegin]
      split <;> simp [h]
  | takeEnd shot ok =>
      simp only [step, handleTakeScreenshotEnd]
      split
      · exact h
      · split <;> simp [h]
  | process => exact absurd rfl hl
  | callReturn o =>
      simp only [step, providerCallReturn]
      split
      · exact h
      · simp [h]
  | reset =>
      simp only [step, handleResetQueue, h]
      simpa using h

/-- C3 amended: flipping the single-flight flag suppresses a pending
call's completion exactly while the flag is still clear when the call
returns; in particular, once a reset has cleared the flag, as long as no
further process-queue intent occurs before the in-flight call returns,
its completion (success or failure alike) emits no event. -/
theorem c3_stale_amended (s : MainState) (ls : List Label) (o : CallOutcome)
    (hflag : s.isProcessing = false)
    (hnp : ∀ l ∈ ls, l ≠ Label.process) :
    (run s ls).isProcessing = false ∧
    (step (run s ls) (Label.callReturn o)).events = (run s ls).events := by
  have hrun : (run s ls).isProcessing = false := by
    induction ls generalizing s with
    | nil => exact hflag
    | cons l rest ih =>
        exact ih (step s l)
          (step_keeps_flag_clear s l (hnp l (List.mem_cons_self l rest)) hflag)
          (fun x hx => hnp x (List.mem_cons_of_mem l hx))
  refine ⟨hrun, ?_⟩
  simp only [step, providerCallReturn]
  split
  · rfl
  · simp [hrun]

/-- Witness for C3's amended theorem: reset while call 1 is in flight,
nothing but a screenshot capture afterwards, then the stale return emits
nothing. -/
theorem c3_stale_amended_witness :
    (run (run readyState [Label.process, Label.reset]) [Label.takeBegin]).isProcessing = false ∧
    (step (run (run readyState [Label.process, Label.reset]) [Label.takeBegin])
        (Label.callReturn (CallOutcome.success staleResult))).events =
      (run (run readyState [Label.process, Label.reset]) [Label.takeBegin]).events := by
  exact c3_stale_amended (run readyState [Label.process, Label.reset])
    [Label.takeBegin] (CallOutcome.success staleResult)
    (by decide) (by decide)

/-! C4: a failed provider call is converted into an error-shaped payload. -/

/-- C4: when an in-flight provider call fails and no reset intervened (the
single-flight flag is still set), the orchestrator's only effect is to
append exactly one `processing-complete` event carrying the synthesized
error-shaped payload — the failure is absorbed at this boundary (the step
is total; nothing propagates) — and that payload has
`approach = "Error occurred while processing"`, both complexities `"N/A"`,
and the original error message embedded in `code`. -/
theorem c4_failure_error_shaped (s : MainState) (msg : String)
    (hflag : s.isProcessing = true) (hpend : s.pendingCalls ≠ 0) :
    step s (Label.callReturn (CallOutcome.failure msg)) =
      { s with pendingCalls := s.pendingCalls - 1
               isProcessing := false
               events := s.events ++ [MainEvent.processingComplete (errorPayload msg)] } ∧
    (errorPayload msg).approach = "Error occurred while processing" ∧
    (errorPayload msg).timeComplexity = "N/A" ∧
    (errorPayload msg).spaceComplexity = "N/A" ∧
    (errorPayload msg).code = "Error: " ++ msg := by
  refine ⟨?_, rfl, rfl, rfl, rfl⟩
  simp [step, providerCallReturn, hflag, hpend]

/-- Witness for C4: a failing call returning into `readyState` after its
process intent. -/
theorem c4_failure_error_shaped_witness :
    step (run readyState [Label.process]) (Label.callReturn (CallOutcome.failure "boom")) =
      { run readyState [Label.process] with
          pendingCalls := (run readyState [Label.process]).pendingCalls - 1
          isProcessing := false
          events := (run readyState [Label.process]).events ++
            [MainEvent.processingComplete (errorPayload "boom")] } := by
  exact (c4_failure_error_shaped (run readyState [Label.process]) "boom"
    (by decide) (by decide)).1

/-! C5: the adapters' response parsing.  Only the Gemini adapter extracts
a brace span at all, its regex is greedy (first opening brace to the LAST
closing brace, not the first balanced span), and the OpenAI adapter
`JSON.parse`s the whole content with no extraction and no field
validation. -/

/-- The spec's canonical provider text. -/
def sureText : String :=
  "Sure! \x7b\"approach\":\"x\",\"code\":\"y\",\"timeComplexity\":\"O(1)\",\"spaceComplexity\":\"O(1)\"\x7d Hope that helps!"

/-- The solution the spec expects the canonical text to yield. -/
def expectedSolution : ProcessedSolution :=
  { approach := "x", code := "y", timeComplexity := "O(1)", spaceComplexity := "O(1)" }

/-- A provider text with a stray closing brace after the payload:
the first balanced span is the valid object, but the greedy regex match
runs to the last closing brace and fails to parse. -/
def twoCloseText : String :=
  "\x7b\"approach\":\"x\",\"code\":\"y\",\"timeComplexity\":\"O(1)\",\"spaceComplexity\":\"O(1)\"\x7d tail \x7d"

/-- Modelled from the spec: the full parsing contract the spec describes
(shared by both adapters per the claim) — take the first balanced brace
span, parse it, and require all four fields non-empty. -/
def specBalancedParse (text : String) : Except AdapterError ProcessedSolution :=
  match firstBalancedSpan text with
  | none => Except.error AdapterError.noJsonFound
  | some span =>
      match jsonFlatParse span with
      | none => Except.error AdapterError.parseFailure
      | some obj =>
          let a := getField obj "approach"
          let c := getField obj "code"
          let t := getField obj "timeComplexity"
          let sp := getField obj "spaceComplexity"
          if a = "" ∨ c = "" ∨ t = "" ∨ sp = "" then
            Except.error AdapterError.invalidStructure
          else
            Except.ok { approach := a, code := c, timeComplexity := t, spaceComplexity := sp }

/-- C5 counterexample: the OpenAI adapter does not locate a brace span at
all — on the claim's own canonical text it fails with a parse error
instead of yielding the expected object — and the Gemini adapter does not
take the FIRST BALANCED span: on `twoCloseText` the spec's contract
yields the expected object while the greedy code match fails to parse. -/
theorem c5_parsing_counterexample :
    openaiProcessResponseContent sureText = Except.error AdapterError.parseFailure ∧
    specBalancedParse twoCloseText = Except.ok expectedSolution ∧
    geminiProcessResponseText twoCloseText = Except.error AdapterError.parseFailure := by
  refine ⟨by decide, by decide, by decide⟩

/-- C5 amended: the Gemini adapter alone extracts a span — from the first
opening brace to the last closing brace (greedy), not the first balanced
span — and succeeds only when parsing that span yields all four fields
non-empty, failing when no span is found; on the canonical text it yields
exactly the expected four fields.  The OpenAI adapter parses the entire
content with no extraction (so the canonical text fails to parse) and no
field validation (an empty object is accepted as-is). -/
theorem c5_parsing_amended :
    geminiProcessResponseText sureText = Except.ok expectedSolution ∧
    (∀ t, geminiJsonMatch t = none →
        geminiProcessResponseText t = Except.error AdapterError.noJsonFound) ∧
    (∀ t r, geminiProcessResponseText t = Except.ok r →
        r.approach ≠ "" ∧ r.code ≠ "" ∧ r.timeComplexity ≠ "" ∧ r.spaceComplexity ≠ "") ∧
    openaiProcessResponseContent sureText = Except.error AdapterError.parseFailure ∧
    openaiProcessResponseContent "\x7b\x7d" = Except.ok [] := by
  refine ⟨by decide, ?_, ?_, by decide, by decide⟩
  · intro t ht
    simp [geminiProcessResponseText, ht]
  · intro t r hr
    unfold geminiProcessResponseText at hr
    split at hr
    · exact absurd hr (by simp)
    · split at hr
      · exact absurd hr (by simp)
      · split at hr
        · exact absurd hr (by simp)
        · rename_i hfields
          push_neg at hfields
          obtain ⟨ha, hc, ht, hsp⟩ := hfields
          injection hr with hr
          subst hr
          exact ⟨ha, hc, ht, hsp⟩

/-- Witness for C5's amended theorem: the no-span case at a concrete text
and the field-non-emptiness at the canonical text. -/
theorem c5_parsing_amended_witness :
    geminiProcessResponseText "no braces here" = Except.error AdapterError.noJsonFound ∧
    expectedSolution.approach ≠ "" := by
  refine ⟨c5_parsing_amended.2.1 "no braces here" (by decide), ?_⟩
  exact (c5_parsing_amended.2.2.1 sureText expectedSolution c5_parsing_amended.1).1

/-! C6: the recording toggle's strict two-state behavior. -/

/-- C6: a stop request while idle fails with the invalid-state error
("Not currently recording") and leaves the recorder state untouched; a
start request while already recording fails with the invalid-state error
("Already recording") and leaves the recorder state untouched. -/
theorem c6_recording_two_state (r : RecorderState) (tool : Bool) (fsz : Option Nat) :
    (r.isRecording = false →
        stopRecording r fsz = (r, Except.error RecError.invalidState)) ∧
    (r.isRecording = true →
        startRecording r tool = (r, Except.error RecError.invalidState)) := by
  constructor
  · intro h
    simp [stopRecording, h]
  · intro h
    simp [startRecording, h]

/-- Witness for C6 at concrete recorder states. -/
theorem c6_recording_two_state_witness :
    stopRecording { isRecording := false, outputPath := "", questionCounter := 1 } (some 10) =
      ({ isRecording := false, outputPath := "", questionCounter := 1 },
        Except.error RecError.invalidState) ∧
    startRecording { isRecording := true, outputPath := questionPath 1, questionCounter := 1 } true =
      ({ isRecording := true, outputPath := questionPath 1, questionCounter := 1 },
        Except.error RecError.invalidState) :=
  ⟨(c6_recording_two_state _ true (some 10)).1 rfl,
   (c6_recording_two_state _ true (some 10)).2 rfl⟩

/-! C7: a stop whose output file is missing or empty enqueues no audio job. -/

/-- C7: when a recording stop finds the output file missing (`none`) or
empty (`some 0`), the recorder-level stop fails with the
recording-failed error, and the orchestrator's whole effect is one
`recording-error` event with the recorder left idle: no
`audio-processing-started` event is sent and the audio-provider call
count is unchanged, i.e. the audio pipeline is not started. -/
theorem c7_failed_stop_no_audio_job (s : AudioSysState) (tool readOk : Bool)
    (stream : List String) (fb : String) (fsz : Option Nat)
    (hRec : s.recorder.isRecording = true)
    (hBad : fsz = none ∨ fsz = some 0) :
    (stopRecording s.recorder fsz).2 = Except.error RecError.recordingFailed ∧
    handleToggleRecording s tool fsz readOk stream fb =
      { s with recorder := { s.recorder with isRecording := false }
               events := s.events ++ [AudioEvent.recordingError] } := by
  rcases hBad with rfl | rfl <;>
    constructor <;>
      simp [handleToggleRecording, toggleRecording, stopRecording, hRec]

/-- Witness for C7: a zero-byte file at a concrete recording state. -/
theorem c7_failed_stop_no_audio_job_witness :
    handleToggleRecording
        { config := some Provider.gemini,
          recorder := { isRecording := true, outputPath := questionPath 3, questionCounter := 3 },
          audioProviderCalls := 0, events := [] }
        true (some 0) true ["chunk"] "fb" =
      { config := some Provider.gemini,
        recorder := { isRecording := false, outputPath := questionPath 3, questionCounter := 3 },
        audioProviderCalls := 0, events := [AudioEvent.recordingError] } := by
  exact (c7_failed_stop_no_audio_job
    { config := some Provider.gemini,
      recorder := { isRecording := true, outputPath := questionPath 3, questionCounter := 3 },
      audioProviderCalls := 0, events := [] }
    true true ["chunk"] "fb" (some 0) rfl (Or.inr rfl)).2

/-! C8: the zero-chunk fallback of the audio streaming pipeline. -/

/-- The streaming loop delivers exactly the non-empty chunk texts, in
arrival order, and reports content exactly when some chunk text was
non-empty. -/
theorem streamDeliver_eq (stream : List String) :
    streamDeliver stream =
      (stream.filter (fun c => !(c == "")), stream.any (fun c => !(c == ""))) := by
  induction stream with
  | nil => rfl
  | cons c rest ih =>
      simp only [streamDeliver, ih, List.filter_cons, List.any_cons]
      by_cases h : c = "" <;> simp [h]

/-- C8 counterexample: with zero stream chunks and an empty fallback
response text, the fallback call is made but its text is NOT delivered as
a single synthetic chunk — nothing is delivered at all. -/
theorem c8_fallback_counterexample :
    processAudioStream [] "" = ([], 1) ∧ processAudioStream [] "" ≠ ([""], 1) := by
  decide

/-- C8 amended: when the stream yields zero content chunks overall,
exactly one fallback non-streaming call is made, and its full text is
delivered as a single synthetic chunk provided that text is non-empty (an
empty fallback text is not delivered); when the stream yields at least
one content chunk, no fallback call is made and exactly the non-empty
chunk texts are forwarded, in arrival order. -/
theorem c8_fallback_amended (stream : List String) (fb : String) :
    ((∀ c ∈ stream, c = "") →
        processAudioStream stream fb = ((if fb = "" then [] else [fb]), 1)) ∧
    ((∃ c ∈ stream, c ≠ "") →
        processAudioStream stream fb = (stream.filter (fun c => !(c == "")), 0)) := by
  constructor
  · intro h
    have hany : stream.any (fun c => !(c == "")) = false := by
      rw [List.any_eq_false]
      intro c hc
      simp [h c hc]
    simp [processAudioStream, streamDeliver_eq, hany]
  · intro h
    obtain ⟨c, hc, hne⟩ := h
    have hany : stream.any (fun c => !(c == "")) = true := by
      rw [List.any_eq_true]
      exact ⟨c, hc, by simp [hne]⟩
    simp [processAudioStream, streamDeliver_eq, hany]

/-- Witness for C8's amended theorem: a content-free stream with a
non-empty fallback, and a stream with content. -/
theorem c8_fallback_amended_witness :
    processAudioStream ["", ""] "full text" = (["full text"], 1) ∧
    processAudioStream ["a", "", "b"] "full text" = (["a", "b"], 0) := by
  constructor
  · exact (c8_fallback_amended ["", ""] "full text").1 (by decide)
  · exact (c8_fallback_amended ["a", "", "b"] "full text").2 ⟨"a", by decide⟩

/-! C9: what reset-all actually clears.  The main process empties the
queue and attempts deletion of the artifacts, but the renderer's
`queue-reset` handler deliberately leaves the result history intact. -/

/-- A concrete history entry. -/
def c9Item : HistoryItem :=
  { id := 10, itemType := "screenshot",
    result := { error := none, approach := "a", code := "c", timeComplexity := "t",
                spaceComplexity := "s" },
    screenshots := [shotA] }

/-- A concrete renderer state with one history entry. -/
def c9Renderer : RendererState :=
  { screenshots := [shotA], history := [c9Item], currentItem := some c9Item,
    isProcessing := false }

/-- C9 counterexample: a reset-all reaching a renderer with one history
entry leaves that history entry in place — the result history is not
cleared. -/
theorem c9_reset_counterexample :
    (onQueueReset c9Renderer).history = [c9Item] ∧
    (onQueueReset c9Renderer).history ≠ [] := by
  decide

/-- C9 amended: every reset-all intent, regardless of prior state
(processing or idle), empties the screenshot queue, attempts best-effort
deletion of every queued on-disk artifact, and emits `queue-reset`; the
renderer's `queue-reset` handler clears the screenshot previews but
leaves the result history and current item untouched. -/
theorem c9_reset_amended (s : MainState) (st : RendererState) :
    (handleResetQueue s).queue = [] ∧
    (handleResetQueue s).deletionAttempts =
      s.deletionAttempts ++ s.queue.map Screenshot.path ∧
    (handleResetQueue s).events =
      (if s.isProcessing then
          s.events ++ [MainEvent.processingComplete cancelledPayload]
        else s.events) ++ [MainEvent.queueReset] ∧
    (onQueueReset st).screenshots = [] ∧
    (onQueueReset st).history = st.history ∧
    (onQueueReset st).currentItem = st.currentItem := by
  by_cases h : s.isProcessing <;> simp [handleResetQueue, onQueueReset, h]

/-! C10: recorder state after a failed stop. -/

/-- C10: a stop that fails because the output file is missing or empty
leaves the recorder idle with the question counter unchanged, so the next
start (with its path assigned from the unchanged counter) targets the
very same `question-<n>.wav` path as the failed recording, and succeeds
toward it when a tool is available. -/
theorem c10_failed_stop_keeps_counter (r : RecorderState) (fsz : Option Nat) (tool : Bool)
    (hRec : r.isRecording = true)
    (hPath : r.outputPath = questionPath r.questionCounter)
    (hBad : fsz = none ∨ fsz = some 0) :
    (stopRecording r fsz).1.isRecording = false ∧
    (stopRecording r fsz).1.questionCounter = r.questionCounter ∧
    (stopRecording r fsz).2 = Except.error RecError.recordingFailed ∧
    (startRecording (stopRecording r fsz).1 tool).1.outputPath = r.outputPath ∧
    (startRecording (stopRecording r fsz).1 true).2 = Except.ok r.outputPath := by
  rcases hBad with rfl | rfl <;>
    cases tool <;>
      simp [stopRecording, startRecording, hRec, hPath]

/-- Witness for C10 at a concrete recorder state with a missing file. -/
theorem c10_failed_stop_keeps_counter_witness :
    (stopRecording { isRecording := true, outputPath := questionPath 7, questionCounter := 7 }
        none).1.questionCounter = 7 ∧
    (startRecording
        (stopRecording { isRecording := true, outputPath := questionPath 7, questionCounter := 7 }
          none).1 true).2 = Except.ok (questionPath 7) := by
  have h := c10_failed_stop_keeps_counter
    { isRecording := true, outputPath := questionPath 7, questionCounter := 7 }
    none true rfl rfl (Or.inl rfl)
  exact ⟨h.2.1, h.2.2.2.2⟩

end InterviewAssistant
